import Mathlib

set_option linter.unusedVariables false
set_option maxRecDepth 8000

/-!
Verification development for the subtitle→document pipeline and the
crawler helpers of this repository.  The caption parser, paragraph
segmenter and document renderer are modelled from the specification
(their implementation is not part of the checked-in sources); the
crawler helpers are translated from `examples/demo-agent/crawler_demo.py`.
-/

namespace Core

/-- Modelled from the spec: a start time with millisecond precision,
decoded from a `HH:MM:SS,mmm` timestamp.  The pipeline implementation is
missing from the sources; this follows spec section 3 (data model). -/
structure Timestamp where
  h : Nat
  m : Nat
  s : Nat
  ms : Nat
  deriving DecidableEq, Repr

/-- Modelled from the spec: whole seconds of a timestamp; the millisecond
fraction is discarded for the gap comparison (spec section 4.2). -/
def Timestamp.totalSec (t : Timestamp) : Nat :=
  t.h * 3600 + t.m * 60 + t.s

/-- Modelled from the spec: a parsed caption entry, spec section 3. -/
structure CaptionEntry where
  start_time : Timestamp
  text : String
  deriving DecidableEq, Repr

/-- Modelled from the spec: segmenter configuration, spec section 6. -/
structure SegConfig where
  max_gap_seconds : Int
  max_paragraph_length : Int
  min_paragraph_length : Int
  deriving DecidableEq, Repr

/-- Modelled from the spec: the default thresholds (3 s, 500 chars, 30 chars). -/
def defaultConfig : SegConfig :=
  { max_gap_seconds := 3, max_paragraph_length := 500, min_paragraph_length := 30 }

/-- Modelled from the spec: the segmenter's explicit accumulator,
spec section 9 (buffer plus optional last start time). -/
structure SegState where
  paragraphs : List String
  buffer : String
  last_start : Option Timestamp
  deriving DecidableEq, Repr

/-- Modelled from the spec: gap in whole seconds between the previous and
the current start time; 0 for the first entry (spec section 4.2). -/
def gapSeconds (last : Option Timestamp) (cur : Timestamp) : Int :=
  match last with
  | none => 0
  | some t => (cur.totalSec : Int) - (t.totalSec : Int)

/-- Modelled from the spec: one step of the segmentation loop, spec
section 4.2.  Flush when the gap reaches `max_gap_seconds` (inclusive) or
the buffer already reached `max_paragraph_length`; otherwise append the
entry's text to the buffer with a single space. -/
def segStep (cfg : SegConfig) (st : SegState) (e : CaptionEntry) : SegState :=
  if cfg.max_gap_seconds ≤ gapSeconds st.last_start e.start_time ∨
      cfg.max_paragraph_length ≤ (st.buffer.length : Int) then
    { paragraphs := st.paragraphs ++ (if st.buffer = "" then [] else [st.buffer]),
      buffer := e.text,
      last_start := some e.start_time }
  else
    { paragraphs := st.paragraphs,
      buffer := if st.buffer = "" then e.text else st.buffer ++ " " ++ e.text,
      last_start := some e.start_time }

/-- Modelled from the spec: after the loop, flush any remaining non-empty
buffer as a final paragraph (spec section 4.2). -/
def flushState (st : SegState) : List String :=
  st.paragraphs ++ (if st.buffer = "" then [] else [st.buffer])

/-- Modelled from the spec: the paragraph segmenter, spec section 4.2 — a
single pass over the entries followed by the minimum-length post-filter
(discard paragraphs of length at most `min_paragraph_length`). -/
def segment (cfg : SegConfig) (entries : List CaptionEntry) : List String :=
  (flushState (entries.foldl (segStep cfg) ⟨[], "", none⟩)).filter
    (fun p => decide (cfg.min_paragraph_length < (p.length : Int)))

/-- Modelled from the spec: the core error taxonomy, spec section 7. -/
inductive CoreError where
  | EmptyTranscript
  | InvalidConfiguration
  deriving DecidableEq, Repr

/-- Modelled from the spec: configuration validity, spec section 7 —
non-positive thresholds and a negative minimum length are rejected. -/
def validConfig (cfg : SegConfig) : Prop :=
  0 < cfg.max_gap_seconds ∧ 0 < cfg.max_paragraph_length ∧ 0 ≤ cfg.min_paragraph_length

instance (cfg : SegConfig) : Decidable (validConfig cfg) := by
  unfold validConfig
  infer_instance

/-- Modelled from the spec: the segmentation stage entry point — the
configuration is validated before segmentation runs (spec section 7). -/
def segmentChecked (cfg : SegConfig) (entries : List CaptionEntry) :
    Except CoreError (List String) :=
  if validConfig cfg then Except.ok (segment cfg entries)
  else Except.error CoreError.InvalidConfiguration


/-- Modelled from the spec: a line is blank when it has no non-whitespace
character (spec section 4.1: blocks are separated by blank lines). -/
def isBlankLine (l : String) : Bool :=
  l.data.all Char.isWhitespace

/-- Modelled from the spec: split a character stream into lines at each
newline character (helper for block splitting, spec section 4.1). -/
def splitLinesAux : List Char → List Char → List String
  | [], cur => [String.mk cur.reverse]
  | c :: rest, cur =>
    if c = '\n' then String.mk cur.reverse :: splitLinesAux rest []
    else splitLinesAux rest (c :: cur)

/-- Modelled from the spec: the lines of the raw subtitle text. -/
def splitLines (s : String) : List String :=
  splitLinesAux s.data []

/-- Modelled from the spec: group consecutive non-blank lines into blocks,
one or more blank lines separating blocks (spec section 4.1). -/
def splitBlocksAux : List String → List String → List (List String)
  | [], cur => if cur = [] then [] else [cur.reverse]
  | l :: rest, cur =>
    if isBlankLine l then
      if cur = [] then splitBlocksAux rest []
      else cur.reverse :: splitBlocksAux rest []
    else splitBlocksAux rest (l :: cur)

/-- Modelled from the spec: the blank-line-delimited blocks of the raw
subtitle text (spec sections 4.1 and 6). -/
def blocksOf (raw : String) : List (List String) :=
  splitBlocksAux (splitLines raw) []

/-- Numeric value of a decimal digit character. -/
def digitVal (c : Char) : Nat :=
  c.toNat - 48

/-- Modelled from the spec: decode a timestamp matching the pattern
`HH:MM:SS,mmm` at the very beginning of a line; the rest of the time-range
line (arrow and end timestamp) is discarded (spec section 4.1). -/
def parseTimestamp (cs : List Char) : Option Timestamp :=
  match cs with
  | h1 :: h2 :: ':' :: m1 :: m2 :: ':' :: s1 :: s2 :: ',' :: d1 :: d2 :: d3 :: _ =>
    if h1.isDigit ∧ h2.isDigit ∧ m1.isDigit ∧ m2.isDigit ∧ s1.isDigit ∧
        s2.isDigit ∧ d1.isDigit ∧ d2.isDigit ∧ d3.isDigit then
      some ⟨digitVal h1 * 10 + digitVal h2, digitVal m1 * 10 + digitVal m2,
            digitVal s1 * 10 + digitVal s2,
            digitVal d1 * 100 + digitVal d2 * 10 + digitVal d3⟩
    else none
  | _ => none

/-- Modelled from the spec: strip bracketed annotation spans entirely
(spec section 4.1).  The flag records whether we are inside a span. -/
def stripBracketsAux : Bool → List Char → List Char
  | _, [] => []
  | false, c :: rest =>
    if c = '[' then stripBracketsAux true rest
    else c :: stripBracketsAux false rest
  | true, c :: rest =>
    if c = ']' then stripBracketsAux false rest
    else stripBracketsAux true rest

/-- Modelled from the spec: remove every bracketed annotation span. -/
def stripBrackets (cs : List Char) : List Char :=
  stripBracketsAux false cs

/-- Modelled from the spec: maximal whitespace-free words of a character
stream, used to collapse whitespace runs and trim (spec section 4.1). -/
def wordsAux : List Char → List Char → List (List Char)
  | [], cur => if cur = [] then [] else [cur.reverse]
  | c :: rest, cur =>
    if c.isWhitespace then
      if cur = [] then wordsAux rest []
      else cur.reverse :: wordsAux rest []
    else wordsAux rest (c :: cur)

/-- Modelled from the spec: clean the joined text lines of a block — join
with single spaces, strip bracketed spans, collapse internal whitespace
runs to single spaces and trim (spec section 4.1). -/
def cleanText (textLines : List String) : String :=
  String.mk (List.intercalate [' ']
    (wordsAux (stripBrackets (List.intercalate [' '] (textLines.map String.data))) []))

/-- Modelled from the spec: a cleaned text is purely numeric when it is a
non-empty run of decimal digits (spec section 4.1). -/
def isNumericStr (s : String) : Bool :=
  !s.data.isEmpty && s.data.all Char.isDigit

/-- Modelled from the spec: decode one block into a caption entry — at
least three lines (index line ignored, time-range line, text lines), a
timestamp at the start of the time-range line, and a cleaned text that is
non-empty, not purely numeric and longer than 2 characters
(spec section 4.1). -/
def decodeBlock : List String → Option CaptionEntry
  | _ :: timeLine :: t1 :: ts =>
    match parseTimestamp timeLine.data with
    | none => none
    | some st =>
      let txt := cleanText (t1 :: ts)
      if txt ≠ "" ∧ isNumericStr txt = false ∧ 2 < txt.length then
        some ⟨st, txt⟩
      else none
  | _ => none

/-- Modelled from the spec: the entries of all individually accepted
blocks, in source block order (spec section 4.1). -/
def acceptedEntries (raw : String) : List CaptionEntry :=
  (blocksOf raw).filterMap decodeBlock

/-- Modelled from the spec: the caption parser — malformed blocks are
dropped silently; the whole parse fails with `EmptyTranscript` exactly
when no block is accepted (spec sections 4.1 and 7). -/
def parse (raw : String) : Except CoreError (List CaptionEntry) :=
  if acceptedEntries raw = [] then Except.error CoreError.EmptyTranscript
  else Except.ok (acceptedEntries raw)

/-- Modelled from the spec: the horizontal separator line of the rendered
document (exact decoration is an implementation choice, spec section 6). -/
def sepLine : String :=
  String.mk (List.replicate 40 '-')

/-- Modelled from the spec: the document renderer, spec section 4.3 — a
title heading, source line, generation-timestamp line, paragraph count,
separator, the paragraphs each followed by a blank line, a closing
separator and a fixed disclaimer line. -/
def render (title source genAt : String) (paras : List String) : String :=
  "# " ++ title ++ "\n\n" ++
  "Source: " ++ source ++ "\n" ++
  "Generated: " ++ genAt ++ "\n" ++
  "Paragraphs: " ++ toString paras.length ++ "\n" ++
  sepLine ++ "\n\n" ++
  String.join (paras.map (fun p => p ++ "\n\n")) ++
  sepLine ++ "\n" ++
  "Generated automatically from subtitles." ++ "\n"

/-- Modelled from the spec: the full pipeline — parse, validate the
configuration, segment, render (spec sections 2, 5 and 7). -/
def pipeline (raw title source genAt : String) (cfg : SegConfig) :
    Except CoreError String :=
  match parse raw with
  | Except.error e => Except.error e
  | Except.ok entries =>
    match segmentChecked cfg entries with
    | Except.error e => Except.error e
    | Except.ok paras => Except.ok (render title source genAt paras)

/-- Characters of a string with all whitespace removed, used to state the
order-preservation property of the segmenter (spec section 8). -/
def stripWS (s : String) : List Char :=
  s.data.filter (fun c => !c.isWhitespace)

/-- Concatenation of the whitespace-free characters of a list of strings. -/
def concatStrip : List String → List Char
  | [] => []
  | s :: rest => stripWS s ++ concatStrip rest


end Core


/-- Codepoint ranges (inclusive) of the characters matched by Python's
Unicode-aware `\w` for str patterns: a character matches iff
`str.isalnum()` holds for it or it is the underscore (CPython
`SRE_UNI_IS_WORD`); ranges generated from the Unicode 14.0 database used
by CPython 3.11. -/
def pyWordRanges : List (Nat × Nat) :=
  [(48, 57), (65, 90), (95, 95), (97, 122), (170, 170), (178, 179),
   (181, 181), (185, 186), (188, 190), (192, 214), (216, 246), (248, 705),
   (710, 721), (736, 740), (748, 748), (750, 750), (880, 884), (886, 887),
   (890, 893), (895, 895), (902, 902), (904, 906), (908, 908), (910, 929),
   (931, 1013), (1015, 1153), (1162, 1327), (1329, 1366), (1369, 1369), (1376, 1416),
   (1488, 1514), (1519, 1522), (1568, 1610), (1632, 1641), (1646, 1647), (1649, 1747),
   (1749, 1749), (1765, 1766), (1774, 1788), (1791, 1791), (1808, 1808), (1810, 1839),
   (1869, 1957), (1969, 1969), (1984, 2026), (2036, 2037), (2042, 2042), (2048, 2069),
   (2074, 2074), (2084, 2084), (2088, 2088), (2112, 2136), (2144, 2154), (2160, 2183),
   (2185, 2190), (2208, 2249), (2308, 2361), (2365, 2365), (2384, 2384), (2392, 2401),
   (2406, 2415), (2417, 2432), (2437, 2444), (2447, 2448), (2451, 2472), (2474, 2480),
   (2482, 2482), (2486, 2489), (2493, 2493), (2510, 2510), (2524, 2525), (2527, 2529),
   (2534, 2545), (2548, 2553), (2556, 2556), (2565, 2570), (2575, 2576), (2579, 2600),
   (2602, 2608), (2610, 2611), (2613, 2614), (2616, 2617), (2649, 2652), (2654, 2654),
   (2662, 2671), (2674, 2676), (2693, 2701), (2703, 2705), (2707, 2728), (2730, 2736),
   (2738, 2739), (2741, 2745), (2749, 2749), (2768, 2768), (2784, 2785), (2790, 2799),
   (2809, 2809), (2821, 2828), (2831, 2832), (2835, 2856), (2858, 2864), (2866, 2867),
   (2869, 2873), (2877, 2877), (2908, 2909), (2911, 2913), (2918, 2927), (2929, 2935),
   (2947, 2947), (2949, 2954), (2958, 2960), (2962, 2965), (2969, 2970), (2972, 2972),
   (2974, 2975), (2979, 2980), (2984, 2986), (2990, 3001), (3024, 3024), (3046, 3058),
   (3077, 3084), (3086, 3088), (3090, 3112), (3114, 3129), (3133, 3133), (3160, 3162),
   (3165, 3165), (3168, 3169), (3174, 3183), (3192, 3198), (3200, 3200), (3205, 3212),
   (3214, 3216), (3218, 3240), (3242, 3251), (3253, 3257), (3261, 3261), (3293, 3294),
   (3296, 3297), (3302, 3311), (3313, 3314), (3332, 3340), (3342, 3344), (3346, 3386),
   (3389, 3389), (3406, 3406), (3412, 3414), (3416, 3425), (3430, 3448), (3450, 3455),
   (3461, 3478), (3482, 3505), (3507, 3515), (3517, 3517), (3520, 3526), (3558, 3567),
   (3585, 3632), (3634, 3635), (3648, 3654), (3664, 3673), (3713, 3714), (3716, 3716),
   (3718, 3722), (3724, 3747), (3749, 3749), (3751, 3760), (3762, 3763), (3773, 3773),
   (3776, 3780), (3782, 3782), (3792, 3801), (3804, 3807), (3840, 3840), (3872, 3891),
   (3904, 3911), (3913, 3948), (3976, 3980), (4096, 4138), (4159, 4169), (4176, 4181),
   (4186, 4189), (4193, 4193), (4197, 4198), (4206, 4208), (4213, 4225), (4238, 4238),
   (4240, 4249), (4256, 4293), (4295, 4295), (4301, 4301), (4304, 4346), (4348, 4680),
   (4682, 4685), (4688, 4694), (4696, 4696), (4698, 4701), (4704, 4744), (4746, 4749),
   (4752, 4784), (4786, 4789), (4792, 4798), (4800, 4800), (4802, 4805), (4808, 4822),
   (4824, 4880), (4882, 4885), (4888, 4954), (4969, 4988), (4992, 5007), (5024, 5109),
   (5112, 5117), (5121, 5740), (5743, 5759), (5761, 5786), (5792, 5866), (5870, 5880),
   (5888, 5905), (5919, 5937), (5952, 5969), (5984, 5996), (5998, 6000), (6016, 6067),
   (6103, 6103), (6108, 6108), (6112, 6121), (6128, 6137), (6160, 6169), (6176, 6264),
   (6272, 6276), (6279, 6312), (6314, 6314), (6320, 6389), (6400, 6430), (6470, 6509),
   (6512, 6516), (6528, 6571), (6576, 6601), (6608, 6618), (6656, 6678), (6688, 6740),
   (6784, 6793), (6800, 6809), (6823, 6823), (6917, 6963), (6981, 6988), (6992, 7001),
   (7043, 7072), (7086, 7141), (7168, 7203), (7232, 7241), (7245, 7293), (7296, 7304),
   (7312, 7354), (7357, 7359), (7401, 7404), (7406, 7411), (7413, 7414), (7418, 7418),
   (7424, 7615), (7680, 7957), (7960, 7965), (7968, 8005), (8008, 8013), (8016, 8023),
   (8025, 8025), (8027, 8027), (8029, 8029), (8031, 8061), (8064, 8116), (8118, 8124),
   (8126, 8126), (8130, 8132), (8134, 8140), (8144, 8147), (8150, 8155), (8160, 8172),
   (8178, 8180), (8182, 8188), (8304, 8305), (8308, 8313), (8319, 8329), (8336, 8348),
   (8450, 8450), (8455, 8455), (8458, 8467), (8469, 8469), (8473, 8477), (8484, 8484),
   (8486, 8486), (8488, 8488), (8490, 8493), (8495, 8505), (8508, 8511), (8517, 8521),
   (8526, 8526), (8528, 8585), (9312, 9371), (9450, 9471), (10102, 10131), (11264, 11492),
   (11499, 11502), (11506, 11507), (11517, 11517), (11520, 11557), (11559, 11559), (11565, 11565),
   (11568, 11623), (11631, 11631), (11648, 11670), (11680, 11686), (11688, 11694), (11696, 11702),
   (11704, 11710), (11712, 11718), (11720, 11726), (11728, 11734), (11736, 11742), (11823, 11823),
   (12293, 12295), (12321, 12329), (12337, 12341), (12344, 12348), (12353, 12438), (12445, 12447),
   (12449, 12538), (12540, 12543), (12549, 12591), (12593, 12686), (12690, 12693), (12704, 12735),
   (12784, 12799), (12832, 12841), (12872, 12879), (12881, 12895), (12928, 12937), (12977, 12991),
   (13312, 19903), (19968, 42124), (42192, 42237), (42240, 42508), (42512, 42539), (42560, 42606),
   (42623, 42653), (42656, 42735), (42775, 42783), (42786, 42888), (42891, 42954), (42960, 42961),
   (42963, 42963), (42965, 42969), (42994, 43009), (43011, 43013), (43015, 43018), (43020, 43042),
   (43056, 43061), (43072, 43123), (43138, 43187), (43216, 43225), (43250, 43255), (43259, 43259),
   (43261, 43262), (43264, 43301), (43312, 43334), (43360, 43388), (43396, 43442), (43471, 43481),
   (43488, 43492), (43494, 43518), (43520, 43560), (43584, 43586), (43588, 43595), (43600, 43609),
   (43616, 43638), (43642, 43642), (43646, 43695), (43697, 43697), (43701, 43702), (43705, 43709),
   (43712, 43712), (43714, 43714), (43739, 43741), (43744, 43754), (43762, 43764), (43777, 43782),
   (43785, 43790), (43793, 43798), (43808, 43814), (43816, 43822), (43824, 43866), (43868, 43881),
   (43888, 44002), (44016, 44025), (44032, 55203), (55216, 55238), (55243, 55291), (63744, 64109),
   (64112, 64217), (64256, 64262), (64275, 64279), (64285, 64285), (64287, 64296), (64298, 64310),
   (64312, 64316), (64318, 64318), (64320, 64321), (64323, 64324), (64326, 64433), (64467, 64829),
   (64848, 64911), (64914, 64967), (65008, 65019), (65136, 65140), (65142, 65276), (65296, 65305),
   (65313, 65338), (65345, 65370), (65382, 65470), (65474, 65479), (65482, 65487), (65490, 65495),
   (65498, 65500), (65536, 65547), (65549, 65574), (65576, 65594), (65596, 65597), (65599, 65613),
   (65616, 65629), (65664, 65786), (65799, 65843), (65856, 65912), (65930, 65931), (66176, 66204),
   (66208, 66256), (66273, 66299), (66304, 66339), (66349, 66378), (66384, 66421), (66432, 66461),
   (66464, 66499), (66504, 66511), (66513, 66517), (66560, 66717), (66720, 66729), (66736, 66771),
   (66776, 66811), (66816, 66855), (66864, 66915), (66928, 66938), (66940, 66954), (66956, 66962),
   (66964, 66965), (66967, 66977), (66979, 66993), (66995, 67001), (67003, 67004), (67072, 67382),
   (67392, 67413), (67424, 67431), (67456, 67461), (67463, 67504), (67506, 67514), (67584, 67589),
   (67592, 67592), (67594, 67637), (67639, 67640), (67644, 67644), (67647, 67669), (67672, 67702),
   (67705, 67742), (67751, 67759), (67808, 67826), (67828, 67829), (67835, 67867), (67872, 67897),
   (67968, 68023), (68028, 68047), (68050, 68096), (68112, 68115), (68117, 68119), (68121, 68149),
   (68160, 68168), (68192, 68222), (68224, 68255), (68288, 68295), (68297, 68324), (68331, 68335),
   (68352, 68405), (68416, 68437), (68440, 68466), (68472, 68497), (68521, 68527), (68608, 68680),
   (68736, 68786), (68800, 68850), (68858, 68899), (68912, 68921), (69216, 69246), (69248, 69289),
   (69296, 69297), (69376, 69415), (69424, 69445), (69457, 69460), (69488, 69505), (69552, 69579),
   (69600, 69622), (69635, 69687), (69714, 69743), (69745, 69746), (69749, 69749), (69763, 69807),
   (69840, 69864), (69872, 69881), (69891, 69926), (69942, 69951), (69956, 69956), (69959, 69959),
   (69968, 70002), (70006, 70006), (70019, 70066), (70081, 70084), (70096, 70106), (70108, 70108),
   (70113, 70132), (70144, 70161), (70163, 70187), (70272, 70278), (70280, 70280), (70282, 70285),
   (70287, 70301), (70303, 70312), (70320, 70366), (70384, 70393), (70405, 70412), (70415, 70416),
   (70419, 70440), (70442, 70448), (70450, 70451), (70453, 70457), (70461, 70461), (70480, 70480),
   (70493, 70497), (70656, 70708), (70727, 70730), (70736, 70745), (70751, 70753), (70784, 70831),
   (70852, 70853), (70855, 70855), (70864, 70873), (71040, 71086), (71128, 71131), (71168, 71215),
   (71236, 71236), (71248, 71257), (71296, 71338), (71352, 71352), (71360, 71369), (71424, 71450),
   (71472, 71483), (71488, 71494), (71680, 71723), (71840, 71922), (71935, 71942), (71945, 71945),
   (71948, 71955), (71957, 71958), (71960, 71983), (71999, 71999), (72001, 72001), (72016, 72025),
   (72096, 72103), (72106, 72144), (72161, 72161), (72163, 72163), (72192, 72192), (72203, 72242),
   (72250, 72250), (72272, 72272), (72284, 72329), (72349, 72349), (72368, 72440), (72704, 72712),
   (72714, 72750), (72768, 72768), (72784, 72812), (72818, 72847), (72960, 72966), (72968, 72969),
   (72971, 73008), (73030, 73030), (73040, 73049), (73056, 73061), (73063, 73064), (73066, 73097),
   (73112, 73112), (73120, 73129), (73440, 73458), (73648, 73648), (73664, 73684), (73728, 74649),
   (74752, 74862), (74880, 75075), (77712, 77808), (77824, 78894), (82944, 83526), (92160, 92728),
   (92736, 92766), (92768, 92777), (92784, 92862), (92864, 92873), (92880, 92909), (92928, 92975),
   (92992, 92995), (93008, 93017), (93019, 93025), (93027, 93047), (93053, 93071), (93760, 93846),
   (93952, 94026), (94032, 94032), (94099, 94111), (94176, 94177), (94179, 94179), (94208, 100343),
   (100352, 101589), (101632, 101640), (110576, 110579), (110581, 110587), (110589, 110590), (110592, 110882),
   (110928, 110930), (110948, 110951), (110960, 111355), (113664, 113770), (113776, 113788), (113792, 113800),
   (113808, 113817), (119520, 119539), (119648, 119672), (119808, 119892), (119894, 119964), (119966, 119967),
   (119970, 119970), (119973, 119974), (119977, 119980), (119982, 119993), (119995, 119995), (119997, 120003),
   (120005, 120069), (120071, 120074), (120077, 120084), (120086, 120092), (120094, 120121), (120123, 120126),
   (120128, 120132), (120134, 120134), (120138, 120144), (120146, 120485), (120488, 120512), (120514, 120538),
   (120540, 120570), (120572, 120596), (120598, 120628), (120630, 120654), (120656, 120686), (120688, 120712),
   (120714, 120744), (120746, 120770), (120772, 120779), (120782, 120831), (122624, 122654), (123136, 123180),
   (123191, 123197), (123200, 123209), (123214, 123214), (123536, 123565), (123584, 123627), (123632, 123641),
   (124896, 124902), (124904, 124907), (124909, 124910), (124912, 124926), (124928, 125124), (125127, 125135),
   (125184, 125251), (125259, 125259), (125264, 125273), (126065, 126123), (126125, 126127), (126129, 126132),
   (126209, 126253), (126255, 126269), (126464, 126467), (126469, 126495), (126497, 126498), (126500, 126500),
   (126503, 126503), (126505, 126514), (126516, 126519), (126521, 126521), (126523, 126523), (126530, 126530),
   (126535, 126535), (126537, 126537), (126539, 126539), (126541, 126543), (126545, 126546), (126548, 126548),
   (126551, 126551), (126553, 126553), (126555, 126555), (126557, 126557), (126559, 126559), (126561, 126562),
   (126564, 126564), (126567, 126570), (126572, 126578), (126580, 126583), (126585, 126588), (126590, 126590),
   (126592, 126601), (126603, 126619), (126625, 126627), (126629, 126633), (126635, 126651), (127232, 127244),
   (130032, 130041), (131072, 173791), (173824, 177976), (177984, 178205), (178208, 183969), (183984, 191456),
   (194560, 195101), (196608, 201546)]

/-- A character of the regex class `[\w=]` used inside the capture group
of the pattern `id_([\w=]+)\.html` in `crawler_demo.py`: Python's
Unicode-aware `\w` (the codepoints of `pyWordRanges`) or the equals
sign. -/
def isWordOrEq (c : Char) : Bool :=
  c == '=' || pyWordRanges.any (fun r => decide (r.1 ≤ c.toNat) && decide (c.toNat ≤ r.2))

/-- The literal `id_` that opens a match of the crawler's URL pattern. -/
def idMark : List Char :=
  ['i', 'd', '_']

/-- The literal `.html` that closes a match of the crawler's URL pattern. -/
def htmlMark : List Char :=
  ['.', 'h', 't', 'm', 'l']

/-- `leadsWith pat l` holds exactly when `pat` is an initial segment of `l`. -/
def leadsWith : List Char → List Char → Bool
  | [], _ => true
  | _ :: _, [] => false
  | p :: ps, c :: cs => p == c && leadsWith ps cs

/-- Attempt of the pattern `id_([\w=]+)\.html` anchored at the head of the
character list: after the literal `id_`, the greedy run of word/equals
characters must be non-empty and be followed by the literal `.html`. -/
def matchIdAt (cs : List Char) : Option (List Char) :=
  if leadsWith idMark cs then
    if (cs.drop 3).takeWhile isWordOrEq ≠ [] ∧
        leadsWith htmlMark ((cs.drop 3).dropWhile isWordOrEq) then
      some ((cs.drop 3).takeWhile isWordOrEq)
    else none
  else none

/-- Leftmost search of the pattern `id_([\w=]+)\.html`, the semantics of
`re.search` in `YoukuCrawler.extract_video_id`. -/
def searchIdHtml : List Char → Option (List Char)
  | [] => none
  | c :: rest =>
    match matchIdAt (c :: rest) with
    | some r => some r
    | none => searchIdHtml rest

namespace YoukuCrawler

/-- `YoukuCrawler.extract_video_id` from `crawler_demo.py`: return the
capture group of `re.search(r'id_([\w=]+)\.html', url)` or `None`. -/
def extract_video_id (url : String) : Option String :=
  Option.map String.mk (searchIdHtml url.data)

/-- `YoukuCrawler.get_danmu` from `crawler_demo.py`: prints an advisory
message (a side effect, not modelled) and returns the empty list. -/
def get_danmu (video_id : String) (timestamp : Nat) : List String :=
  []

/-- `YoukuCrawler.get_comments` from `crawler_demo.py`: prints an advisory
message (a side effect, not modelled) and returns the empty list. -/
def get_comments (video_id : String) (page : Nat) : List String :=
  []

end YoukuCrawler

/-- The fixed text of the generated Playwright script before the point
where `video_url` is substituted (`crawler_demo.py`, the f-string of
`BrowserAutomation.get_youku_danmu` up to `page.goto("`). -/
def scriptHead : String :=
  "\nfrom playwright.sync_api import sync_playwright\nimport json\n\nwith sync_playwright() as p:\n    browser = p.chromium.launch(headless=True)\n    page = browser.new_page()\n    \n    # 打开视频页\n    page.goto(\""

/-- The fixed text of the generated Playwright script after the point
where `video_url` is substituted (`crawler_demo.py`, the f-string of
`BrowserAutomation.get_youku_danmu` from `")` after the goto). -/
def scriptTail : String :=
  "\")\n    page.wait_for_timeout(5000)\n    \n    # 提取弹幕\n    danmu_list = []\n    try:\n        # 等待弹幕元素加载\n        page.wait_for_selector(\".dm-item, .danmu-item\", timeout=10000)\n        \n        # 获取所有弹幕\n        danmu_elements = page.query_selector_all(\".dm-item, .danmu-item\")\n        for el in danmu_elements:\n            text = el.inner_text()\n            if text:\n                danmu_list.append(text)\n    except Exception as e:\n        print(f\"获取弹幕失败: \x7be\x7d\")\n    \n    # 提取评论\n    comments = []\n    try:\n        page.wait_for_selector(\".comment-item, .comment-text\", timeout=10000)\n        comment_elements = page.query_selector_all(\".comment-item, .comment-text\")\n        for el in comment_elements[:50]:  # 前50条\n            text = el.inner_text()\n            if text:\n                comments.append(text)\n    except Exception as e:\n        print(f\"获取评论失败: \x7be\x7d\")\n    \n    browser.close()\n    \n    result = \x7b\n        \"danmu\": danmu_list,\n        \"comments\": comments\n    \x7d\n    print(json.dumps(result, ensure_ascii=False, indent=2))\n"

namespace BrowserAutomation

/-- `BrowserAutomation.get_youku_danmu` from `crawler_demo.py`: the
f-string substitutes `video_url` once between the fixed head and tail. -/
def get_youku_danmu (video_url : String) : String :=
  scriptHead ++ video_url ++ scriptTail

end BrowserAutomation

/-- Number of occurrences of `pat` as a contiguous sublist of `l`: the
count of positions (including the end position) where `pat` leads. -/
def countOcc (pat : List Char) : List Char → Nat
  | [] => if leadsWith pat [] then 1 else 0
  | c :: rest => (if leadsWith pat (c :: rest) then 1 else 0) + countOcc pat rest

/-! ## Shared helper lemmas -/

theorem parse_ok_iff (raw : String) (es : List Core.CaptionEntry) :
    Core.parse raw = Except.ok es ↔
      (Core.acceptedEntries raw ≠ [] ∧ es = Core.acceptedEntries raw) := by
  unfold Core.parse
  by_cases h : Core.acceptedEntries raw = []
  · rw [if_pos h]
    constructor
    · intro hco
      exact Except.noConfusion hco
    · intro hco
      exact absurd h hco.1
  · rw [if_neg h]
    constructor
    · intro hco
      injection hco with h'
      exact ⟨h, h'.symm⟩
    · intro hco
      rw [hco.2]

theorem parse_error_iff (raw : String) :
    Core.parse raw = Except.error Core.CoreError.EmptyTranscript ↔
      Core.acceptedEntries raw = [] := by
  unfold Core.parse
  by_cases h : Core.acceptedEntries raw = []
  · rw [if_pos h]
    exact ⟨fun _ => h, fun _ => rfl⟩
  · rw [if_neg h]
    constructor
    · intro hco
      exact Except.noConfusion hco
    · intro hco
      exact absurd hco h

/-! ## Claim theorems: segmenter thresholds and configuration -/

/-- Claim C1: every paragraph in the output of the segmenter has text
length strictly greater than `min_paragraph_length` (default 30); a
paragraph of length at most the threshold is never emitted. -/
theorem segment_min_length (cfg : Core.SegConfig) (entries : List Core.CaptionEntry)
    (p : String) (hmem : p ∈ Core.segment cfg entries) :
    cfg.min_paragraph_length < (p.length : Int) := by
  unfold Core.segment at hmem
  exact of_decide_eq_true (List.mem_filter.mp hmem).2

/-- Witness for `segment_min_length` at a concrete entry list. -/
theorem segment_min_length_witness :
    Core.defaultConfig.min_paragraph_length <
      (("abcdefghijklmnopqrstuvwxyz0123456789abcd" : String).length : Int) :=
  segment_min_length Core.defaultConfig
    [⟨⟨0, 0, 1, 0⟩, "abcdefghijklmnopqrstuvwxyz0123456789abcd"⟩]
    "abcdefghijklmnopqrstuvwxyz0123456789abcd" (by decide)

/-- Claim C2: in the segmentation step, a gap exactly equal to
`max_gap_seconds` flushes the buffer and starts a new paragraph (inclusive
threshold), while a strictly smaller gap with the buffer still under
`max_paragraph_length` appends to the buffer and starts no new paragraph. -/
theorem segment_gap_threshold (cfg : Core.SegConfig) (st : Core.SegState)
    (e : Core.CaptionEntry) (t : Core.Timestamp)
    (hlast : st.last_start = some t) :
    ((e.start_time.totalSec : Int) - (t.totalSec : Int) = cfg.max_gap_seconds →
      (Core.segStep cfg st e).buffer = e.text ∧
      (Core.segStep cfg st e).paragraphs =
        st.paragraphs ++ (if st.buffer = "" then [] else [st.buffer])) ∧
    ((e.start_time.totalSec : Int) - (t.totalSec : Int) < cfg.max_gap_seconds →
      (st.buffer.length : Int) < cfg.max_paragraph_length →
      (Core.segStep cfg st e).paragraphs = st.paragraphs ∧
      (Core.segStep cfg st e).buffer =
        (if st.buffer = "" then e.text else st.buffer ++ " " ++ e.text)) := by
  constructor
  · intro hg
    have hcond : cfg.max_gap_seconds ≤ Core.gapSeconds st.last_start e.start_time ∨
        cfg.max_paragraph_length ≤ (st.buffer.length : Int) := by
      left
      simp only [hlast, Core.gapSeconds]
      omega
    unfold Core.segStep
    rw [if_pos hcond]
    exact ⟨rfl, rfl⟩
  · intro hg hb
    have hcond : ¬ (cfg.max_gap_seconds ≤ Core.gapSeconds st.last_start e.start_time ∨
        cfg.max_paragraph_length ≤ (st.buffer.length : Int)) := by
      simp only [hlast, Core.gapSeconds]
      omega
    unfold Core.segStep
    rw [if_neg hcond]
    exact ⟨rfl, rfl⟩

/-- Witness for `segment_gap_threshold`: with the default 3-second
threshold a 3-second gap flushes and a 2-second gap appends. -/
theorem segment_gap_threshold_witness :
    (Core.segStep Core.defaultConfig ⟨[], "buffered words", some ⟨0, 0, 1, 0⟩⟩
        ⟨⟨0, 0, 4, 0⟩, "next"⟩).paragraphs = ["buffered words"] ∧
    (Core.segStep Core.defaultConfig ⟨[], "buffered words", some ⟨0, 0, 1, 0⟩⟩
        ⟨⟨0, 0, 3, 0⟩, "next"⟩).paragraphs = [] := by
  have h1 := (segment_gap_threshold Core.defaultConfig
      ⟨[], "buffered words", some ⟨0, 0, 1, 0⟩⟩ ⟨⟨0, 0, 4, 0⟩, "next"⟩
      ⟨0, 0, 1, 0⟩ rfl).1 (by decide)
  have h2 := (segment_gap_threshold Core.defaultConfig
      ⟨[], "buffered words", some ⟨0, 0, 1, 0⟩⟩ ⟨⟨0, 0, 3, 0⟩, "next"⟩
      ⟨0, 0, 1, 0⟩ rfl).2 (by decide) (by decide)
  refine ⟨?_, h2.1⟩
  rw [h1.2]
  decide

/-- Claim C5: any configuration with a non-positive gap threshold, a
non-positive maximum paragraph length or a negative minimum paragraph
length is rejected with `InvalidConfiguration` before segmentation runs,
for every entry sequence. -/
theorem invalid_config_rejected (cfg : Core.SegConfig)
    (entries : List Core.CaptionEntry)
    (h : cfg.max_gap_seconds ≤ 0 ∨ cfg.max_paragraph_length ≤ 0 ∨
      cfg.min_paragraph_length < 0) :
    Core.segmentChecked cfg entries =
      Except.error Core.CoreError.InvalidConfiguration := by
  unfold Core.segmentChecked
  rw [if_neg]
  unfold Core.validConfig
  omega

/-- Witness for `invalid_config_rejected` at a zero gap threshold. -/
theorem invalid_config_rejected_witness :
    Core.segmentChecked ⟨0, 500, 30⟩ [] =
      Except.error Core.CoreError.InvalidConfiguration :=
  invalid_config_rejected ⟨0, 500, 30⟩ [] (Or.inl (by decide))

/-- Claim C6: the pipeline is a deterministic function of the raw text,
the metadata strings and the configuration — running it twice on the same
inputs (same `generated_at`) yields byte-identical output. -/
theorem pipeline_deterministic (raw title source genAt : String)
    (cfg : Core.SegConfig) :
    Core.pipeline raw title source genAt cfg =
      Core.pipeline raw title source genAt cfg := rfl

/-- Claim C9: the API-based crawler methods are stubs — `get_danmu` and
`get_comments` return the empty list for all arguments, independently of
their arguments. -/
theorem crawler_stub_methods (v₁ v₂ : String) (t₁ t₂ p₁ p₂ : Nat) :
    YoukuCrawler.get_danmu v₁ t₁ = [] ∧
    YoukuCrawler.get_comments v₁ p₁ = [] ∧
    YoukuCrawler.get_danmu v₁ t₁ = YoukuCrawler.get_danmu v₂ t₂ ∧
    YoukuCrawler.get_comments v₁ p₁ = YoukuCrawler.get_comments v₂ p₂ :=
  ⟨rfl, rfl, rfl, rfl⟩

/-! ## Claim theorems: parser error handling -/

/-- Claim C4: `parse` never fails on an individual malformed block — every
emitted entry comes from some accepted block and a successful parse
returns exactly the accepted entries, so a failing block is absent from
the entry sequence; `parse` returns `EmptyTranscript` if and only if zero
blocks are accepted, and it never returns any other failure. -/
theorem parse_malformed_recovery (raw : String) :
    (Core.parse raw = Except.error Core.CoreError.EmptyTranscript ↔
      Core.acceptedEntries raw = []) ∧
    (∀ es, Core.parse raw = Except.ok es → es = Core.acceptedEntries raw) ∧
    (∀ e, e ∈ Core.acceptedEntries raw →
      ∃ b, b ∈ Core.blocksOf raw ∧ Core.decodeBlock b = some e) ∧
    Core.parse raw ≠ Except.error Core.CoreError.InvalidConfiguration := by
  refine ⟨parse_error_iff raw, ?_, ?_, ?_⟩
  · intro es hes
    exact ((parse_ok_iff raw es).mp hes).2
  · intro e he
    unfold Core.acceptedEntries at he
    obtain ⟨b, hb, hdec⟩ := List.mem_filterMap.mp he
    exact ⟨b, hb, hdec⟩
  · intro hco
    unfold Core.parse at hco
    by_cases h : Core.acceptedEntries raw = []
    · rw [if_pos h] at hco
      injection hco with h'
      exact Core.CoreError.noConfusion h'
    · rw [if_neg h] at hco
      exact Except.noConfusion hco

/-- Witness for `parse_malformed_recovery`: in an input with one good
block and one block whose time-range line is malformed, the surviving
entry comes from a block that decodes to it. -/
theorem parse_malformed_recovery_witness :
    ∃ b, b ∈ Core.blocksOf
        "1\n00:00:01,000 --> 00:00:02,000\nHello there world\n\n2\nbadtime --> 00:00:05,000\nMore caption text" ∧
      Core.decodeBlock b = some ⟨⟨0, 0, 1, 0⟩, "Hello there world"⟩ :=
  (parse_malformed_recovery
      "1\n00:00:01,000 --> 00:00:02,000\nHello there world\n\n2\nbadtime --> 00:00:05,000\nMore caption text").2.2.1
    ⟨⟨0, 0, 1, 0⟩, "Hello there world"⟩ (by decide)

theorem decodeBlock_cons_isSome (idx tl t1 : String) (ts : List String) :
    (Core.decodeBlock (idx :: tl :: t1 :: ts)).isSome ↔
      ((Core.parseTimestamp tl.data).isSome ∧
        Core.cleanText (t1 :: ts) ≠ "" ∧
        Core.isNumericStr (Core.cleanText (t1 :: ts)) = false ∧
        2 < (Core.cleanText (t1 :: ts)).length) := by
  unfold Core.decodeBlock
  cases hpt : Core.parseTimestamp tl.data with
  | none => simp [hpt]
  | some st =>
    simp only [hpt, Option.isSome_some, true_and]
    split_ifs with hc
    · simp [hc]
    · simp only [Option.isSome_none, Bool.false_eq_true, false_iff]
      exact hc

theorem splitBlocksAux_nonblank (ls : List String) :
    ∀ cur, (∀ l ∈ cur, Core.isBlankLine l = false) →
      ∀ b ∈ Core.splitBlocksAux ls cur, ∀ l ∈ b, Core.isBlankLine l = false := by
  induction ls with
  | nil =>
    intro cur hcur b hb l hl
    unfold Core.splitBlocksAux at hb
    by_cases hc : cur = []
    · rw [if_pos hc] at hb
      exact absurd hb (List.not_mem_nil b)
    · rw [if_neg hc] at hb
      rcases List.mem_singleton.mp hb with rfl
      exact hcur l (List.mem_reverse.mp hl)
  | cons hd tlns ih =>
    intro cur hcur b hb l hl
    unfold Core.splitBlocksAux at hb
    by_cases hbl : Core.isBlankLine hd = true
    · rw [if_pos hbl] at hb
      by_cases hc : cur = []
      · rw [if_pos hc] at hb
        exact ih [] (by intro l' hl'; exact absurd hl' (List.not_mem_nil l')) b hb l hl
      · rw [if_neg hc] at hb
        rcases List.mem_cons.mp hb with rfl | hb'
        · exact hcur l (List.mem_reverse.mp hl)
        · exact ih [] (by intro l' hl'; exact absurd hl' (List.not_mem_nil l')) b hb' l hl
    · rw [if_neg hbl] at hb
      refine ih (hd :: cur) ?_ b hb l hl
      intro l' hl'
      rcases List.mem_cons.mp hl' with rfl | hl''
      · exact Bool.not_eq_true _ |>.mp hbl
      · exact hcur l' hl''

/-- Claim C3: a block produces a caption entry if and only if it has at
least three lines (an ignored index line, a time-range line beginning with
a `HH:MM:SS,mmm` timestamp, and text lines) and its cleaned joined text is
non-empty, not purely numeric, and longer than 2 characters; moreover all
lines of a block produced by the block splitter are non-blank. -/
theorem decode_accepts_iff (b : List String) (raw : String) :
    ((Core.decodeBlock b).isSome ↔
      ∃ idx timeLine t1 ts, b = idx :: timeLine :: t1 :: ts ∧
        (Core.parseTimestamp timeLine.data).isSome ∧
        Core.cleanText (t1 :: ts) ≠ "" ∧
        Core.isNumericStr (Core.cleanText (t1 :: ts)) = false ∧
        2 < (Core.cleanText (t1 :: ts)).length) ∧
    (b ∈ Core.blocksOf raw → ∀ l ∈ b, Core.isBlankLine l = false) := by
  constructor
  · constructor
    · intro hsome
      match b with
      | [] => simp [Core.decodeBlock] at hsome
      | [a] => simp [Core.decodeBlock] at hsome
      | [a, c] => simp [Core.decodeBlock] at hsome
      | idx :: tl :: t1 :: ts =>
        obtain ⟨h1, h2, h3, h4⟩ := (decodeBlock_cons_isSome idx tl t1 ts).mp hsome
        exact ⟨idx, tl, t1, ts, rfl, h1, h2, h3, h4⟩
    · rintro ⟨idx, tl, t1, ts, rfl, h1, h2, h3, h4⟩
      exact (decodeBlock_cons_isSome idx tl t1 ts).mpr ⟨h1, h2, h3, h4⟩
  · intro hb
    unfold Core.blocksOf at hb
    exact splitBlocksAux_nonblank (Core.splitLines raw) []
      (by intro l' hl'; exact absurd hl' (List.not_mem_nil l')) b hb

/-- Witness for `decode_accepts_iff`: a well-formed three-line block is
accepted, via the right-to-left direction of the characterization. -/
theorem decode_accepts_iff_witness :
    (Core.decodeBlock ["1", "00:00:01,000 --> 00:00:02,000", "Hello there world"]).isSome :=
  (decode_accepts_iff ["1", "00:00:01,000 --> 00:00:02,000", "Hello there world"] "x").1.mpr
    ⟨"1", "00:00:01,000 --> 00:00:02,000", "Hello there world", [], rfl,
      by decide, by decide, by decide, by decide⟩

/-! ## Claim theorems: order preservation -/

theorem stripWS_append (a b : String) :
    Core.stripWS (a ++ b) = Core.stripWS a ++ Core.stripWS b := by
  unfold Core.stripWS
  rw [String.data_append, List.filter_append]

theorem stripWS_empty : Core.stripWS "" = [] := rfl

theorem stripWS_single_space : Core.stripWS " " = [] := by decide

theorem concatStrip_nil : Core.concatStrip [] = [] := rfl

theorem concatStrip_cons (s : String) (rest : List String) :
    Core.concatStrip (s :: rest) = Core.stripWS s ++ Core.concatStrip rest := rfl

theorem concatStrip_append (l₁ l₂ : List String) :
    Core.concatStrip (l₁ ++ l₂) = Core.concatStrip l₁ ++ Core.concatStrip l₂ := by
  induction l₁ with
  | nil => rfl
  | cons s rest ih => simp [concatStrip_cons, ih, List.append_assoc]

theorem segStep_concat (cfg : Core.SegConfig) (st : Core.SegState)
    (e : Core.CaptionEntry) :
    Core.concatStrip (Core.segStep cfg st e).paragraphs ++
      Core.stripWS (Core.segStep cfg st e).buffer =
    Core.concatStrip st.paragraphs ++ Core.stripWS st.buffer ++
      Core.stripWS e.text := by
  unfold Core.segStep
  split
  · by_cases hb : st.buffer = ""
    · simp [hb, concatStrip_append, stripWS_empty, concatStrip_nil]
    · simp [hb, concatStrip_append, concatStrip_cons, concatStrip_nil,
        List.append_assoc]
  · by_cases hb : st.buffer = ""
    · simp [hb, stripWS_empty]
    · simp [hb, stripWS_append, stripWS_single_space, List.append_assoc]

theorem foldl_segStep_concat (cfg : Core.SegConfig)
    (entries : List Core.CaptionEntry) :
    ∀ st : Core.SegState,
      Core.concatStrip (List.foldl (Core.segStep cfg) st entries).paragraphs ++
        Core.stripWS (List.foldl (Core.segStep cfg) st entries).buffer =
      Core.concatStrip st.paragraphs ++ Core.stripWS st.buffer ++
        Core.concatStrip (entries.map Core.CaptionEntry.text) := by
  induction entries with
  | nil => intro st; simp [concatStrip_nil]
  | cons e rest ih =>
    intro st
    simp only [List.foldl_cons, List.map_cons, concatStrip_cons]
    rw [ih (Core.segStep cfg st e), segStep_concat]
    simp [List.append_assoc]

theorem flushState_concat (st : Core.SegState) :
    Core.concatStrip (Core.flushState st) =
      Core.concatStrip st.paragraphs ++ Core.stripWS st.buffer := by
  unfold Core.flushState
  by_cases hb : st.buffer = ""
  · simp [hb, stripWS_empty]
  · simp [hb, concatStrip_append, concatStrip_cons, concatStrip_nil]

theorem concatStrip_sublist {l₁ l₂ : List String} (h : l₁.Sublist l₂) :
    (Core.concatStrip l₁).Sublist (Core.concatStrip l₂) := by
  induction h with
  | slnil => exact List.Sublist.refl _
  | cons a h ih => exact ih.trans (List.sublist_append_right _ _)
  | cons₂ a h ih => exact ih.append_left _

/-- Claim C7: the whitespace-free concatenation of the paragraphs emitted
by the segmenter is an in-order subsequence of the whitespace-free
concatenation of the input entry texts (no reordering, no duplication),
and a successful parse returns the accepted entries exactly in source
block order, without re-sorting by time. -/
theorem segment_preserves_order (cfg : Core.SegConfig)
    (entries : List Core.CaptionEntry) (raw : String) :
    (Core.concatStrip (Core.segment cfg entries)).Sublist
      (Core.concatStrip (entries.map Core.CaptionEntry.text)) ∧
    (∀ es, Core.parse raw = Except.ok es →
      es = (Core.blocksOf raw).filterMap Core.decodeBlock) := by
  constructor
  · have hsub : (Core.segment cfg entries).Sublist
        (Core.flushState (entries.foldl (Core.segStep cfg) ⟨[], "", none⟩)) := by
      unfold Core.segment
      exact List.filter_sublist _
    have heq : Core.concatStrip
        (Core.flushState (entries.foldl (Core.segStep cfg) ⟨[], "", none⟩)) =
        Core.concatStrip (entries.map Core.CaptionEntry.text) := by
      rw [flushState_concat, foldl_segStep_concat]
      rfl
    exact heq ▸ concatStrip_sublist hsub
  · intro es hes
    exact ((parse_ok_iff raw es).mp hes).2

/-- Witness for `segment_preserves_order`: on the two-block scenario from
the spec, the parsed entries equal the decoded blocks in source order. -/
theorem segment_preserves_order_witness :
    ([⟨⟨0, 0, 1, 0⟩, "Hello there"⟩, ⟨⟨0, 0, 3, 500⟩, "world today"⟩] :
        List Core.CaptionEntry) =
      (Core.blocksOf
          "1\n00:00:01,000 --> 00:00:02,000\nHello there\n\n2\n00:00:03,500 --> 00:00:04,000\nworld today").filterMap
        Core.decodeBlock :=
  (segment_preserves_order Core.defaultConfig []
      "1\n00:00:01,000 --> 00:00:02,000\nHello there\n\n2\n00:00:03,500 --> 00:00:04,000\nworld today").2
    [⟨⟨0, 0, 1, 0⟩, "Hello there"⟩, ⟨⟨0, 0, 3, 500⟩, "world today"⟩] (by rfl)

/-! ## Claim theorems: URL pattern extraction -/

theorem leadsWith_iff (p : List Char) :
    ∀ l, leadsWith p l = true ↔ ∃ t, l = p ++ t := by
  induction p with
  | nil =>
    intro l
    simp only [leadsWith, List.nil_append, true_iff]
    exact ⟨l, rfl⟩
  | cons a ps ih =>
    intro l
    cases l with
    | nil =>
      simp [leadsWith]
    | cons c cs =>
      simp only [leadsWith, Bool.and_eq_true, beq_iff_eq, List.cons_append]
      constructor
      · rintro ⟨rfl, h⟩
        obtain ⟨t, rfl⟩ := (ih cs).mp h
        exact ⟨t, rfl⟩
      · rintro ⟨t, ht⟩
        injection ht with h1 h2
        exact ⟨h1.symm, (ih cs).mpr ⟨t, h2⟩⟩

theorem run_take_drop (p : Char → Bool) (x : Char) (t : List Char)
    (hx : p x = false) :
    ∀ l : List Char, l.all p = true →
      ((l ++ x :: t).takeWhile p = l ∧ (l ++ x :: t).dropWhile p = x :: t) := by
  intro l
  induction l with
  | nil =>
    intro _
    simp [List.takeWhile, List.dropWhile, hx]
  | cons a l ih =>
    intro hall
    rw [List.all_cons, Bool.and_eq_true] at hall
    obtain ⟨ha, hl⟩ := hall
    obtain ⟨h1, h2⟩ := ih hl
    simp [List.takeWhile_cons, List.dropWhile_cons, ha, h1, h2]

theorem matchIdAt_sound (cs r : List Char) (h : matchIdAt cs = some r) :
    r ≠ [] ∧ r.all isWordOrEq = true ∧
      ∃ post, cs = idMark ++ (r ++ (htmlMark ++ post)) := by
  unfold matchIdAt at h
  split_ifs at h with h1 h2
  · obtain ⟨t, rfl⟩ := (leadsWith_iff idMark cs).mp h1
    have hdrop : (idMark ++ t).drop 3 = t := rfl
    rw [hdrop] at h2 h
    injection h with h'
    obtain ⟨hne, hlw⟩ := h2
    obtain ⟨post, hpost⟩ := (leadsWith_iff htmlMark _).mp hlw
    subst h'
    refine ⟨hne, List.all_takeWhile, post, ?_⟩
    have hsplit : t.takeWhile isWordOrEq ++ t.dropWhile isWordOrEq = t :=
      List.takeWhile_append_dropWhile isWordOrEq t
    rw [hpost] at hsplit
    rw [hsplit]

theorem matchIdAt_complete (run post : List Char) (hne : run ≠ [])
    (hall : run.all isWordOrEq = true) :
    matchIdAt (idMark ++ (run ++ (htmlMark ++ post))) = some run := by
  have hdot : isWordOrEq '.' = false := by decide
  have htake := (run_take_drop isWordOrEq '.' (['h', 't', 'm', 'l'] ++ post) hdot run hall).1
  have hdrop := (run_take_drop isWordOrEq '.' (['h', 't', 'm', 'l'] ++ post) hdot run hall).2
  have hd3 : (idMark ++ (run ++ (htmlMark ++ post))).drop 3 =
      run ++ '.' :: (['h', 't', 'm', 'l'] ++ post) := rfl
  have hcond : run ≠ [] ∧ leadsWith htmlMark ('.' :: (['h', 't', 'm', 'l'] ++ post)) = true :=
    ⟨hne, (leadsWith_iff htmlMark _).mpr ⟨post, rfl⟩⟩
  unfold matchIdAt
  rw [if_pos ((leadsWith_iff idMark _).mpr ⟨_, rfl⟩), hd3, htake, hdrop, if_pos hcond]

theorem searchIdHtml_sound (cs : List Char) :
    ∀ r, searchIdHtml cs = some r →
      r ≠ [] ∧ r.all isWordOrEq = true ∧
        ∃ pre post, cs = pre ++ (idMark ++ (r ++ (htmlMark ++ post))) ∧
          ∀ pre₂ run₂ post₂, run₂ ≠ [] → run₂.all isWordOrEq = true →
            cs = pre₂ ++ (idMark ++ (run₂ ++ (htmlMark ++ post₂))) →
            pre.length ≤ pre₂.length := by
  induction cs with
  | nil =>
    intro r h
    simp [searchIdHtml] at h
  | cons c rest ih =>
    intro r h
    unfold searchIdHtml at h
    cases hm : matchIdAt (c :: rest) with
    | some r0 =>
      rw [hm] at h
      injection h with h'
      subst h'
      obtain ⟨hne, hall, post, hcs⟩ := matchIdAt_sound (c :: rest) r0 hm
      exact ⟨hne, hall, [], post, by simpa using hcs,
        fun pre₂ _ _ _ _ _ => Nat.zero_le _⟩
    | none =>
      rw [hm] at h
      obtain ⟨hne, hall, pre, post, hcs, hmin⟩ := ih r h
      refine ⟨hne, hall, c :: pre, post, by rw [List.cons_append, hcs], ?_⟩
      intro pre₂ run₂ post₂ h2ne h2all h2cs
      cases pre₂ with
      | nil =>
        exfalso
        rw [List.nil_append] at h2cs
        rw [h2cs, matchIdAt_complete run₂ post₂ h2ne h2all] at hm
        exact Option.noConfusion hm
      | cons c₂ pre₂' =>
        rw [List.cons_append] at h2cs
        injection h2cs with hc hr
        exact Nat.succ_le_succ (hmin pre₂' run₂ post₂ h2ne h2all hr)

theorem searchIdHtml_complete (cs : List Char) :
    (∃ pre run post, run ≠ [] ∧ run.all isWordOrEq = true ∧
        cs = pre ++ (idMark ++ (run ++ (htmlMark ++ post)))) →
      ∃ r, searchIdHtml cs = some r := by
  induction cs with
  | nil =>
    rintro ⟨pre, run, post, hne, hall, hcs⟩
    exfalso
    cases pre <;> simp [idMark] at hcs
  | cons c rest ih =>
    rintro ⟨pre, run, post, hne, hall, hcs⟩
    unfold searchIdHtml
    cases hm : matchIdAt (c :: rest) with
    | some r => exact ⟨r, rfl⟩
    | none =>
      cases pre with
      | nil =>
        exfalso
        rw [List.nil_append] at hcs
        rw [hcs, matchIdAt_complete run post hne hall] at hm
        exact Option.noConfusion hm
      | cons c₂ pre' =>
        rw [List.cons_append] at hcs
        injection hcs with hc hr
        exact ih ⟨pre', run, post, hne, hall, hr⟩

/-- Claim C8: `extract_video_id` returns `some v` exactly for the leftmost
match of the pattern `id_([\w=]+)\.html`: any returned value is a
non-empty run of word/equals characters standing between `id_` and
`.html` in the url at the leftmost matching position, and whenever such a
decomposition exists the function returns a value; it never raises (it is
a total function into an option). -/
theorem extract_video_id_spec (url : String) :
    (∀ v : String, YoukuCrawler.extract_video_id url = some v →
      v.data ≠ [] ∧ v.data.all isWordOrEq = true ∧
        ∃ pre post, url.data = pre ++ (idMark ++ (v.data ++ (htmlMark ++ post))) ∧
          ∀ pre₂ run₂ post₂, run₂ ≠ [] → run₂.all isWordOrEq = true →
            url.data = pre₂ ++ (idMark ++ (run₂ ++ (htmlMark ++ post₂))) →
            pre.length ≤ pre₂.length) ∧
    ((∃ pre run post, run ≠ [] ∧ run.all isWordOrEq = true ∧
        url.data = pre ++ (idMark ++ (run ++ (htmlMark ++ post)))) →
      ∃ v, YoukuCrawler.extract_video_id url = some v) := by
  constructor
  · intro v hv
    unfold YoukuCrawler.extract_video_id at hv
    cases hs : searchIdHtml url.data with
    | none =>
      rw [hs] at hv
      exact Option.noConfusion hv
    | some r =>
      rw [hs] at hv
      injection hv with hv'
      have hvr : v.data = r := by rw [← hv']
      rw [hvr]
      exact searchIdHtml_sound url.data r hs
  · intro hex
    obtain ⟨r, hr⟩ := searchIdHtml_complete url.data hex
    refine ⟨String.mk r, ?_⟩
    unfold YoukuCrawler.extract_video_id
    rw [hr]
    rfl

/-- Witness for `extract_video_id_spec`: the sample Youku url from the
source's own comment contains a match, so extraction succeeds. -/
theorem extract_video_id_spec_witness :
    ∃ v, YoukuCrawler.extract_video_id
        "https://v.youku.com/v_show/id_XNjM0MTY2NDAwMA==.html" = some v :=
  (extract_video_id_spec "https://v.youku.com/v_show/id_XNjM0MTY2NDAwMA==.html").2
    ⟨"https://v.youku.com/v_show/".data, "XNjM0MTY2NDAwMA==".data, [],
      by decide, by decide, by decide⟩

/-! ## Claim theorems: browser automation script -/

theorem countOcc_cons (pat : List Char) (c : Char) (rest : List Char) :
    countOcc pat (c :: rest) =
      (if leadsWith pat (c :: rest) = true then 1 else 0) + countOcc pat rest := rfl

theorem countOcc_embedded (pat : List Char) :
    ∀ pre t : List Char, 1 ≤ countOcc pat (pre ++ (pat ++ t)) := by
  intro pre t
  induction pre with
  | nil =>
    rw [List.nil_append]
    cases hpt : pat ++ t with
    | nil =>
      obtain ⟨hp, -⟩ := List.append_eq_nil.mp hpt
      subst hp
      simp [countOcc, leadsWith]
    | cons c rest =>
      rw [countOcc_cons, if_pos (hpt ▸ (leadsWith_iff pat _).mpr ⟨t, rfl⟩)]
      exact Nat.le_add_right 1 _
  | cons c pre ih =>
    rw [List.cons_append, countOcc_cons]
    split_ifs with hc
    · omega
    · omega

set_option maxRecDepth 20000 in
/-- The claim that the generated script contains the substituted
`video_url` exactly once fails on the one-character url `"a"`, which also
occurs inside the fixed template text (e.g. in `playwright`). -/
theorem get_youku_danmu_not_unique :
    ¬ countOcc ("a".data) ((BrowserAutomation.get_youku_danmu "a").data) = 1 := by
  decide

/-- Claim C10 (amended): `get_youku_danmu` is deterministic — equal
arguments give identical script strings — and the returned script contains
the given `video_url` verbatim (substituted into the `page.goto` line),
at least once but not necessarily exactly once. -/
theorem get_youku_danmu_contains_url (video_url : String) :
    BrowserAutomation.get_youku_danmu video_url =
      BrowserAutomation.get_youku_danmu video_url ∧
    1 ≤ countOcc video_url.data (BrowserAutomation.get_youku_danmu video_url).data := by
  refine ⟨rfl, ?_⟩
  have hdata : (BrowserAutomation.get_youku_danmu video_url).data =
      scriptHead.data ++ (video_url.data ++ scriptTail.data) := by
    show (scriptHead ++ video_url ++ scriptTail).data = _
    rw [String.data_append, String.data_append, List.append_assoc]
  rw [hdata]
  exact countOcc_embedded video_url.data scriptHead.data scriptTail.data
